import Mathlib

/-!
Error reporting of `shared_storage_windows`

A shallow embedding of `packages/shared_storage_windows/windows/shared_storage_error.cpp`:
the cause-to-code mapping `ToErrorCode` and the exception class `NsdError`
(its constructor and its message accessor `what`).

* A `std::string` is a counted sequence of `char`s, which may hold any byte,
  the NUL byte included.
* A value of the unscoped enumeration `ErrorCause` is its integer tag; a tag
  that is no enumerator can be made by a cast, so every integer is covered.
* The header `shared_storage_error.h`, with the enumerator declaration, is not
  among the sources. The enumerator values are a parameter of the embedding
  (`ErrorCauseDecl`), with the one fact about them that the compiled `switch`
  itself requires: its five case labels are pairwise different.
-/

namespace shared_storage_windows

/-! ## Strings -/

/-- One C++ `char`, as a byte. -/
abbrev CChar := UInt8

/-- A `std::string`: the sequence of its `size()` chars. -/
abbrev CppString := List CChar

/-- The `std::string` made from a string literal of the source: its UTF-8 bytes. -/
def lit (s : String) : CppString := s.toUTF8.data.toList

/-- The array `std::string::c_str()` points to: the chars of the string
followed by the terminating NUL. -/
def c_str (s : CppString) : List CChar := s ++ [0]

/-- The string a `const char*` stands for under the C convention: the chars of
the array before the first NUL. -/
def readCStr (p : List CChar) : CppString := p.takeWhile (fun b => b != 0)

/-- ASCII `a`..`z`. -/
def isLowerAscii (b : CChar) : Prop := 97 ≤ b ∧ b ≤ 122

/-- ASCII `A`..`Z`. -/
def isUpperAscii (b : CChar) : Prop := 65 ≤ b ∧ b ≤ 90

/-- An ASCII letter of either case. -/
def isAsciiLetter (b : CChar) : Prop := isLowerAscii b ∨ isUpperAscii b

instance (b : CChar) : Decidable (isLowerAscii b) := by
  unfold isLowerAscii; infer_instance

instance (b : CChar) : Decidable (isUpperAscii b) := by
  unfold isUpperAscii; infer_instance

instance (b : CChar) : Decidable (isAsciiLetter b) := by
  unfold isAsciiLetter; infer_instance

/-! ## The enumeration `ErrorCause` -/

/-- A value of the enumeration `ErrorCause`: its integer tag. -/
abbrev ErrorCause := Int

/-- The enumerator declaration of `ErrorCause` (in `shared_storage_error.h`):
the integer value of each of the five enumerators that `ToErrorCode` names in
its case labels. C++ rejects a `switch` with two equal case labels, hence
`distinct`. -/
structure ErrorCauseDecl where
  ILLEGAL_ARGUMENT : ErrorCause
  ALREADY_ACTIVE : ErrorCause
  MAX_LIMIT : ErrorCause
  OPERATION_NOT_SUPPORTED : ErrorCause
  INTERNAL_ERROR : ErrorCause
  distinct : [ILLEGAL_ARGUMENT, ALREADY_ACTIVE, MAX_LIMIT, OPERATION_NOT_SUPPORTED,
    INTERNAL_ERROR].Nodup

/-- The five named enumerators of a declaration. -/
def ErrorCauseDecl.named (E : ErrorCauseDecl) : List ErrorCause :=
  [E.ILLEGAL_ARGUMENT, E.ALREADY_ACTIVE, E.MAX_LIMIT, E.OPERATION_NOT_SUPPORTED,
    E.INTERNAL_ERROR]

/-- Modelled from the spec: the header with the enumerator values is missing;
the spec lists the members as `ILLEGAL_ARGUMENT`, `ALREADY_ACTIVE`, `MAX_LIMIT`,
`OPERATION_NOT_SUPPORTED`, `INTERNAL_ERROR`, and an enumeration declared in
that order without initialisers numbers them 0 to 4. -/
def defaultDecl : ErrorCauseDecl := ⟨0, 1, 2, 3, 4, by decide⟩

/-! ## `ToErrorCode` -/

/-- The function `ToErrorCode`: the `switch` over the cause, one arm per case
label in source order; `case INTERNAL_ERROR:` and `default:` share a body. -/
def ToErrorCode (E : ErrorCauseDecl) (errorCause : ErrorCause) : CppString :=
  if errorCause = E.ILLEGAL_ARGUMENT then lit "illegalArgument"
  else if errorCause = E.ALREADY_ACTIVE then lit "alreadyActive"
  else if errorCause = E.MAX_LIMIT then lit "maxLimit"
  else if errorCause = E.OPERATION_NOT_SUPPORTED then lit "operationNotSupported"
  else if errorCause = E.INTERNAL_ERROR then lit "internalError"
  else lit "internalError"

/-! ## The `switch` statement of `ToErrorCode`, as a relation -/

/-- One item of the body of the `switch` in `ToErrorCode`: a `case` label with
its constant, the `default` label, or a `return` of a string literal. The body
names no variable and no object other than the cause switched on. -/
inductive SwitchItem where
  | caseLabel (k : ErrorCause)
  | defaultLabel
  | ret (s : CppString)
deriving DecidableEq

/-- Execution of the items that follow a label: labels are passed over (fall
through), the first `return` ends the call with its string; running off the
end of the body returns nothing. -/
def runFrom : List SwitchItem → Option CppString
  | [] => none
  | .ret s :: _ => some s
  | .caseLabel _ :: rest => runFrom rest
  | .defaultLabel :: rest => runFrom rest

/-- The labels control may be passed to for the cause `c`: a `case` label
whose constant equals `c`, or the `default` label when no `case` label of the
body has the constant `c`. -/
def isTarget (body : List SwitchItem) (c : ErrorCause) (l : SwitchItem) : Prop :=
  l = .caseLabel c ∨ (l = .defaultLabel ∧ SwitchItem.caseLabel c ∉ body)

instance (body : List SwitchItem) (c : ErrorCause) (l : SwitchItem) :
    Decidable (isTarget body c l) := by
  unfold isTarget; infer_instance

/-- A call of a `switch` with the cause `c` may return `s`: some item of the
body is a target label for `c`, and execution from the item after it returns
`s`. Nothing here says that there is one such label only. -/
def SwitchReturns (body : List SwitchItem) (c : ErrorCause) (s : CppString) : Prop :=
  ∃ i l, body[i]? = some l ∧ isTarget body c l ∧ runFrom (body.drop (i + 1)) = some s

/-! ## `NsdError` -/

set_option linter.dupNamespace false in
/-- The class `NsdError`: its two data members, and its constructor
`NsdError::NsdError(errorCause, message)`, whose initialiser list copies each
argument into the member of the same name and whose body is empty. -/
structure NsdError where
  NsdError ::
  errorCause : ErrorCause
  message : CppString

/-- The accessor `NsdError::what()`: `message.c_str()`, the array the returned
`const char*` points to. -/
def NsdError.what (e : shared_storage_windows.NsdError) : List CChar := c_str e.message

/-! ## Basic facts -/

theorem decl_ne (E : ErrorCauseDecl) :
    E.ILLEGAL_ARGUMENT ≠ E.ALREADY_ACTIVE ∧ E.ILLEGAL_ARGUMENT ≠ E.MAX_LIMIT ∧
    E.ILLEGAL_ARGUMENT ≠ E.OPERATION_NOT_SUPPORTED ∧ E.ILLEGAL_ARGUMENT ≠ E.INTERNAL_ERROR ∧
    E.ALREADY_ACTIVE ≠ E.MAX_LIMIT ∧ E.ALREADY_ACTIVE ≠ E.OPERATION_NOT_SUPPORTED ∧
    E.ALREADY_ACTIVE ≠ E.INTERNAL_ERROR ∧ E.MAX_LIMIT ≠ E.OPERATION_NOT_SUPPORTED ∧
    E.MAX_LIMIT ≠ E.INTERNAL_ERROR ∧ E.OPERATION_NOT_SUPPORTED ≠ E.INTERNAL_ERROR := by
  have h := E.distinct
  simp only [List.nodup_cons, List.mem_cons, List.mem_singleton, not_or, List.not_mem_nil,
    not_false_eq_true, List.nodup_nil, and_true] at h
  obtain ⟨⟨h1, h2, h3, h4⟩, ⟨h5, h6, h7⟩, ⟨h8, h9⟩, h10⟩ := h
  exact ⟨h1, h2, h3, h4, h5, h6, h7, h8, h9, h10⟩

theorem code_ILLEGAL_ARGUMENT (E : ErrorCauseDecl) :
    ToErrorCode E E.ILLEGAL_ARGUMENT = lit "illegalArgument" := by
  simp [ToErrorCode]

theorem code_ALREADY_ACTIVE (E : ErrorCauseDecl) :
    ToErrorCode E E.ALREADY_ACTIVE = lit "alreadyActive" := by
  obtain ⟨h1, -⟩ := decl_ne E
  simp [ToErrorCode, h1.symm]

theorem code_MAX_LIMIT (E : ErrorCauseDecl) :
    ToErrorCode E E.MAX_LIMIT = lit "maxLimit" := by
  obtain ⟨-, h2, -, -, h5, -⟩ := decl_ne E
  simp [ToErrorCode, h2.symm, h5.symm]

theorem code_OPERATION_NOT_SUPPORTED (E : ErrorCauseDecl) :
    ToErrorCode E E.OPERATION_NOT_SUPPORTED = lit "operationNotSupported" := by
  obtain ⟨-, -, h3, -, -, h6, -, h8, -⟩ := decl_ne E
  simp [ToErrorCode, h3.symm, h6.symm, h8.symm]

theorem code_INTERNAL_ERROR (E : ErrorCauseDecl) :
    ToErrorCode E E.INTERNAL_ERROR = lit "internalError" := by
  obtain ⟨-, -, -, h4, -, -, h7, -, h9, h10⟩ := decl_ne E
  simp [ToErrorCode, h4.symm, h7.symm, h9.symm, h10.symm]

theorem code_unnamed (E : ErrorCauseDecl) (c : ErrorCause) (h : c ∉ E.named) :
    ToErrorCode E c = lit "internalError" := by
  simp only [ErrorCauseDecl.named, List.mem_cons, List.mem_singleton, not_or,
    List.not_mem_nil, not_false_eq_true, and_true] at h
  obtain ⟨h1, h2, h3, h4, h5⟩ := h
  simp [ToErrorCode, h1, h2, h3, h4, h5]

/-- The result of `ToErrorCode` is one of the five code strings, whatever the cause. -/
theorem code_range (E : ErrorCauseDecl) (c : ErrorCause) :
    ToErrorCode E c = lit "illegalArgument" ∨ ToErrorCode E c = lit "alreadyActive" ∨
    ToErrorCode E c = lit "maxLimit" ∨ ToErrorCode E c = lit "operationNotSupported" ∨
    ToErrorCode E c = lit "internalError" := by
  unfold ToErrorCode
  split_ifs <;> simp

/-- The relation is not single-valued by itself: a body with the same case
label twice may return two different strings for that label. -/
theorem switchReturns_two_results :
    SwitchReturns [.caseLabel 1, .ret (lit "a"), .caseLabel 1, .ret (lit "b")] 1 (lit "a") ∧
    SwitchReturns [.caseLabel 1, .ret (lit "a"), .caseLabel 1, .ret (lit "b")] 1 (lit "b") ∧
    lit "a" ≠ lit "b" :=
  ⟨⟨0, _, rfl, Or.inl rfl, rfl⟩, ⟨2, _, rfl, Or.inl rfl, rfl⟩, by decide⟩

/-- Reading the array of `c_str` as a C string stops at the first NUL of the
string itself, or at the terminator when it has none. -/
theorem readCStr_c_str (s : CppString) :
    readCStr (c_str s) = s.takeWhile (fun b => b != 0) := by
  induction s with
  | nil => simp [readCStr, c_str]
  | cons b t ih =>
    unfold readCStr c_str at ih ⊢
    by_cases hb : b = 0
    · simp [List.takeWhile_cons, hb]
    · simp [List.takeWhile_cons, hb, ih]

theorem takeWhile_nonNUL_of_not_mem (s : CppString) (h : (0 : CChar) ∉ s) :
    s.takeWhile (fun b => b != 0) = s := by
  induction s with
  | nil => rfl
  | cons b t ih =>
    have hb : b ≠ 0 := fun e => h (by simp [e])
    have ht : (0 : CChar) ∉ t := fun m => h (List.mem_cons_of_mem _ m)
    simp [List.takeWhile_cons, hb, ih ht]

theorem not_mem_takeWhile_nonNUL (s : CppString) :
    (0 : CChar) ∉ s.takeWhile (fun b => b != 0) := by
  induction s with
  | nil => simp
  | cons b t ih =>
    by_cases hb : b = 0
    · simp [List.takeWhile_cons, hb]
    · have hb2 : (0 : CChar) ≠ b := fun e => hb e.symm
      simp [List.takeWhile_cons, hb, hb2, ih]

theorem takeWhile_nonNUL_isInitial (s : CppString) :
    s.takeWhile (fun b => b != 0) <+: s := by
  induction s with
  | nil => simp
  | cons b t ih =>
    by_cases hb : b = 0
    · simp [List.takeWhile_cons, hb]
    · simpa [List.takeWhile_cons, hb, List.cons_prefix_cons] using ih

theorem length_le_takeWhile_nonNUL (s p : CppString) (hp : p <+: s) (h0 : (0 : CChar) ∉ p) :
    p.length ≤ (s.takeWhile (fun b => b != 0)).length := by
  induction s generalizing p with
  | nil =>
    have : p = [] := by simpa using hp
    simp [this]
  | cons b t ih =>
    cases p with
    | nil => simp
    | cons a q =>
      rw [List.cons_prefix_cons] at hp
      obtain ⟨hab, hq⟩ := hp
      subst hab
      have ha : a ≠ 0 := fun e => h0 (by simp [e])
      have hq0 : (0 : CChar) ∉ q := fun m => h0 (List.mem_cons_of_mem _ m)
      simpa [List.takeWhile_cons, ha] using ih q hq hq0

/-! ## The cause-to-code mapping -/

/-- C1: `ToErrorCode` returns exactly the string of the mapping table for each
of the five named causes: ILLEGAL_ARGUMENT gives "illegalArgument",
ALREADY_ACTIVE gives "alreadyActive", MAX_LIMIT gives "maxLimit",
OPERATION_NOT_SUPPORTED gives "operationNotSupported" and INTERNAL_ERROR gives
"internalError", whatever integer values the enumerators have. -/
theorem ToErrorCode_named_table (E : ErrorCauseDecl) :
    ToErrorCode E E.ILLEGAL_ARGUMENT = lit "illegalArgument" ∧
    ToErrorCode E E.ALREADY_ACTIVE = lit "alreadyActive" ∧
    ToErrorCode E E.MAX_LIMIT = lit "maxLimit" ∧
    ToErrorCode E E.OPERATION_NOT_SUPPORTED = lit "operationNotSupported" ∧
    ToErrorCode E E.INTERNAL_ERROR = lit "internalError" :=
  ⟨code_ILLEGAL_ARGUMENT E, code_ALREADY_ACTIVE E, code_MAX_LIMIT E,
    code_OPERATION_NOT_SUPPORTED E, code_INTERNAL_ERROR E⟩

/-- C2: for every cause value that is not one of the five named enumerators
(an out-of-range or unrecognised integer tag), `ToErrorCode` returns
"internalError". -/
theorem ToErrorCode_unnamed_fallback (E : ErrorCauseDecl) (c : ErrorCause)
    (h : c ∉ E.named) : ToErrorCode E c = lit "internalError" :=
  code_unnamed E c h

/-- Witness of C2: the tags 5 and -1 under the declaration numbered 0 to 4. -/
theorem ToErrorCode_unnamed_fallback_witness :
    (5 : ErrorCause) ∉ defaultDecl.named ∧ (-1 : ErrorCause) ∉ defaultDecl.named ∧
    ToErrorCode defaultDecl 5 = lit "internalError" ∧
    ToErrorCode defaultDecl (-1) = lit "internalError" :=
  ⟨by decide, by decide, ToErrorCode_unnamed_fallback defaultDecl 5 (by decide),
    ToErrorCode_unnamed_fallback defaultDecl (-1) (by decide)⟩

/-! ## The error value and its message accessor -/

/-- C3, as stated, fails: the message `a`, NUL, `b` comes back from `what()`,
read as the C string a `const char*` is, as `a` alone, which is not the
message the value was constructed with. -/
theorem what_message_embedded_NUL_cut :
    readCStr (NsdError.what (NsdError.NsdError defaultDecl.INTERNAL_ERROR [97, 0, 98])) = [97] ∧
    readCStr (NsdError.what (NsdError.NsdError defaultDecl.INTERNAL_ERROR [97, 0, 98]))
      ≠ [97, 0, 98] := by
  constructor <;> decide

/-- C3, amended: for every cause C and every message string M that contains no
NUL character (the empty string and strings with multi-byte content
included), `what()` of `NsdError(C, M)`, read as a C string, equals M, with no
truncation. -/
theorem what_message_verbatim_of_no_NUL (C : ErrorCause) (M : CppString)
    (h : (0 : CChar) ∉ M) : readCStr (NsdError.what (NsdError.NsdError C M)) = M := by
  show readCStr (c_str M) = M
  rw [readCStr_c_str]
  exact takeWhile_nonNUL_of_not_mem M h

/-- Witness of C3 amended: the empty message and a message with two-byte and
three-byte UTF-8 characters. -/
theorem what_message_verbatim_of_no_NUL_witness :
    ((0 : CChar) ∉ lit "" ∧
      readCStr (NsdError.what (NsdError.NsdError defaultDecl.MAX_LIMIT (lit ""))) = lit "") ∧
    ((0 : CChar) ∉ lit "café €5" ∧
      readCStr (NsdError.what (NsdError.NsdError defaultDecl.MAX_LIMIT (lit "café €5")))
        = lit "café €5") :=
  ⟨⟨by decide, what_message_verbatim_of_no_NUL _ _ (by decide)⟩,
    ⟨by decide, what_message_verbatim_of_no_NUL _ _ (by decide)⟩⟩

/-- C4: for every cause C and message M, the error value `NsdError(C, M)`
holds exactly the cause C, so the code derived from it equals `ToErrorCode(C)`;
cause OPERATION_NOT_SUPPORTED with message "discovery already running" gives
that message and code "operationNotSupported", and cause INTERNAL_ERROR with
the empty message gives the empty message and code "internalError". -/
theorem NsdError_holds_cause (E : ErrorCauseDecl) (C : ErrorCause) (M : CppString) :
    (NsdError.NsdError C M).errorCause = C ∧
    ToErrorCode E (NsdError.NsdError C M).errorCause = ToErrorCode E C ∧
    (readCStr (NsdError.what
        (NsdError.NsdError E.OPERATION_NOT_SUPPORTED (lit "discovery already running")))
        = lit "discovery already running" ∧
      ToErrorCode E
        (NsdError.NsdError E.OPERATION_NOT_SUPPORTED (lit "discovery already running")).errorCause
        = lit "operationNotSupported") ∧
    (readCStr (NsdError.what (NsdError.NsdError E.INTERNAL_ERROR (lit ""))) = lit "" ∧
      ToErrorCode E (NsdError.NsdError E.INTERNAL_ERROR (lit "")).errorCause
        = lit "internalError") := by
  refine ⟨rfl, rfl, ⟨?_, code_OPERATION_NOT_SUPPORTED E⟩, ⟨?_, code_INTERNAL_ERROR E⟩⟩
  · show readCStr (c_str (lit "discovery already running")) = _
    decide
  · show readCStr (c_str (lit "")) = _
    decide

/-! ## Properties of the mapping -/

/-- C5: the cause-to-code mapping is tie-free on the named causes: any two
distinct causes among the five named enumerators get two different strings. -/
theorem ToErrorCode_tie_free_on_named (E : ErrorCauseDecl) (a b : ErrorCause)
    (ha : a ∈ E.named) (hb : b ∈ E.named) (hab : a ≠ b) :
    ToErrorCode E a ≠ ToErrorCode E b := by
  simp only [ErrorCauseDecl.named, List.mem_cons, List.mem_singleton, List.not_mem_nil,
    or_false] at ha hb
  rcases ha with rfl | rfl | rfl | rfl | rfl <;> rcases hb with rfl | rfl | rfl | rfl | rfl <;>
    first
    | exact absurd rfl hab
    | (simp only [code_ILLEGAL_ARGUMENT, code_ALREADY_ACTIVE, code_MAX_LIMIT,
        code_OPERATION_NOT_SUPPORTED, code_INTERNAL_ERROR]
       decide)

/-- Witness of C5: MAX_LIMIT and INTERNAL_ERROR under the declaration numbered
0 to 4. -/
theorem ToErrorCode_tie_free_on_named_witness :
    defaultDecl.MAX_LIMIT ∈ defaultDecl.named ∧ defaultDecl.INTERNAL_ERROR ∈ defaultDecl.named ∧
    defaultDecl.MAX_LIMIT ≠ defaultDecl.INTERNAL_ERROR ∧
    ToErrorCode defaultDecl defaultDecl.MAX_LIMIT
      ≠ ToErrorCode defaultDecl defaultDecl.INTERNAL_ERROR :=
  ⟨by decide, by decide, by decide,
    ToErrorCode_tie_free_on_named defaultDecl _ _ (by decide) (by decide) (by decide)⟩

/-- C6: `ToErrorCode` is total and its range is closed: for every cause value
whatsoever, named or not, it returns a result, and that result is one of
"illegalArgument", "alreadyActive", "maxLimit", "operationNotSupported",
"internalError". -/
theorem ToErrorCode_total_closed_range (E : ErrorCauseDecl) (c : ErrorCause) :
    ∃ code, ToErrorCode E c = code ∧
      code ∈ [lit "illegalArgument", lit "alreadyActive", lit "maxLimit",
        lit "operationNotSupported", lit "internalError"] := by
  refine ⟨ToErrorCode E c, rfl, ?_⟩
  simp only [List.mem_cons, List.mem_singleton, List.not_mem_nil, or_false]
  exact code_range E c

/-- C7: for every cause value, the string returned by `ToErrorCode` is a
non-empty lowercase-camel-case identifier: it has at least one character, its
first character is a lowercase ASCII letter, and every character is an ASCII
letter. -/
theorem ToErrorCode_lower_camel_identifier (E : ErrorCauseDecl) (c : ErrorCause) :
    1 ≤ (ToErrorCode E c).length ∧
    (∃ b rest, ToErrorCode E c = b :: rest ∧ isLowerAscii b) ∧
    ∀ x ∈ ToErrorCode E c, isAsciiLetter x := by
  rcases code_range E c with h | h | h | h | h <;> rw [h] <;>
    exact ⟨by decide, ⟨_, _, rfl, by decide⟩, by decide⟩

/-- C8: the message accessor is independent of the cause: for every message M
and any two causes C1 and C2, `what()` of `NsdError(C1, M)` equals `what()` of
`NsdError(C2, M)`, as the array pointed to and as the C string read from it,
whatever `ToErrorCode` returns for the two causes. -/
theorem what_independent_of_cause (M : CppString) (C1 C2 : ErrorCause) :
    NsdError.what (NsdError.NsdError C1 M) = NsdError.what (NsdError.NsdError C2 M) ∧
    readCStr (NsdError.what (NsdError.NsdError C1 M))
      = readCStr (NsdError.what (NsdError.NsdError C2 M)) :=
  ⟨rfl, rfl⟩

/-- C10: read as a NUL-terminated C string, the result of `what()` on
`NsdError(C, M)` is the longest prefix of M that contains no NUL character:
it is a prefix of M, holds no NUL, and no NUL-free prefix of M is longer; it
equals M exactly when M contains no NUL, and is strictly shorter than M
otherwise. -/
theorem what_longest_NUL_free_initial (C : ErrorCause) (M : CppString) :
    readCStr (NsdError.what (NsdError.NsdError C M)) <+: M ∧
    (0 : CChar) ∉ readCStr (NsdError.what (NsdError.NsdError C M)) ∧
    (∀ p : CppString, p <+: M → (0 : CChar) ∉ p →
      p.length ≤ (readCStr (NsdError.what (NsdError.NsdError C M))).length) ∧
    (readCStr (NsdError.what (NsdError.NsdError C M)) = M ↔ (0 : CChar) ∉ M) ∧
    ((0 : CChar) ∈ M →
      (readCStr (NsdError.what (NsdError.NsdError C M))).length < M.length) := by
  have hw : readCStr (NsdError.what (NsdError.NsdError C M))
      = M.takeWhile (fun b => b != 0) := readCStr_c_str M
  rw [hw]
  have hiff : M.takeWhile (fun b => b != 0) = M ↔ (0 : CChar) ∉ M := by
    constructor
    · intro e
      rw [← e]
      exact not_mem_takeWhile_nonNUL M
    · exact takeWhile_nonNUL_of_not_mem M
  refine ⟨takeWhile_nonNUL_isInitial M, not_mem_takeWhile_nonNUL M,
    fun p hp h0 => length_le_takeWhile_nonNUL M p hp h0, hiff, ?_⟩
  intro hmem
  have hle := List.IsPrefix.length_le (takeWhile_nonNUL_isInitial M)
  rcases Nat.lt_or_ge (M.takeWhile (fun b => b != 0)).length M.length with hlt | hge
  · exact hlt
  · exfalso
    have heq : M.takeWhile (fun b => b != 0) = M :=
      List.IsPrefix.eq_of_length (takeWhile_nonNUL_isInitial M) (Nat.le_antisymm hle hge)
    exact (hiff.mp heq) hmem

/-- C11: for every cause value c, `ToErrorCode(c)` is "internalError" if and
only if c is INTERNAL_ERROR or c is not one of the five named enumerators;
equivalently, none of ILLEGAL_ARGUMENT, ALREADY_ACTIVE, MAX_LIMIT and
OPERATION_NOT_SUPPORTED ever gets the result of the default arm. -/
theorem ToErrorCode_internalError_iff (E : ErrorCauseDecl) (c : ErrorCause) :
    (ToErrorCode E c = lit "internalError" ↔ (c = E.INTERNAL_ERROR ∨ c ∉ E.named)) ∧
    ToErrorCode E E.ILLEGAL_ARGUMENT ≠ lit "internalError" ∧
    ToErrorCode E E.ALREADY_ACTIVE ≠ lit "internalError" ∧
    ToErrorCode E E.MAX_LIMIT ≠ lit "internalError" ∧
    ToErrorCode E E.OPERATION_NOT_SUPPORTED ≠ lit "internalError" := by
  have h1 : ToErrorCode E E.ILLEGAL_ARGUMENT ≠ lit "internalError" := by
    rw [code_ILLEGAL_ARGUMENT]; decide
  have h2 : ToErrorCode E E.ALREADY_ACTIVE ≠ lit "internalError" := by
    rw [code_ALREADY_ACTIVE]; decide
  have h3 : ToErrorCode E E.MAX_LIMIT ≠ lit "internalError" := by
    rw [code_MAX_LIMIT]; decide
  have h4 : ToErrorCode E E.OPERATION_NOT_SUPPORTED ≠ lit "internalError" := by
    rw [code_OPERATION_NOT_SUPPORTED]; decide
  refine ⟨⟨fun h => ?_, fun h => ?_⟩, h1, h2, h3, h4⟩
  · by_cases hc : c ∈ E.named
    · simp only [ErrorCauseDecl.named, List.mem_cons, List.mem_singleton, List.not_mem_nil,
        or_false] at hc
      rcases hc with rfl | rfl | rfl | rfl | rfl
      · exact absurd h h1
      · exact absurd h h2
      · exact absurd h h3
      · exact absurd h h4
      · exact Or.inl rfl
    · exact Or.inr hc
  · rcases h with rfl | hc
    · exact code_INTERNAL_ERROR E
    · exact code_unnamed E c hc

end shared_storage_windows
